import Mathlib

/-!
Shallow embedding of the `CurveMath` class of `trochoid_viewer.py`
(curve evaluation, auxiliary rolling-circle geometry, parameter range,
and polyline statistics), together with theorems settling the frozen
claims about it.

Python float division raises `ZeroDivisionError` on a zero denominator,
so every division whose denominator can be zero is modelled with `pydiv`,
returning `none` exactly when the source raises.  Divisions by nonzero
literal constants (`r / 2.0`, `r / 4.0`, `/ 999`, `/ 99`) are total and
use plain real division.
-/

open Real

namespace CurveMath

/-- Python `a / b`: raises (here `none`) when `b = 0`, else real division. -/
noncomputable def pydiv (a b : ℝ) : Option ℝ :=
  if b = 0 then none else some (a / b)

/-- `CurveMath.get_point(curve_type, t, r, k, d)`: dispatch on the curve
type string; `none` models a `ZeroDivisionError` escaping the call. -/
noncomputable def get_point (ct : String) (t r k d : ℝ) : Option (ℝ × ℝ) :=
  if ct = "cycloid" then
    some (r * (t - Real.sin t), r * (1 - Real.cos t))
  else if ct = "trochoid" then
    some (r * t - d * Real.sin t, r - d * Real.cos t)
  else if ct = "cardioid" then
    some (2 * r * Real.cos t - r * Real.cos (2 * t),
          2 * r * Real.sin t - r * Real.sin (2 * t))
  else if ct = "nephroid" then
    let b := r / 2
    (pydiv (r + b) b).bind fun q =>
      some ((r + b) * Real.cos t - b * Real.cos (q * t),
            (r + b) * Real.sin t - b * Real.sin (q * t))
  else if ct = "astroid" then
    some (r * Real.cos t ^ 3, r * Real.sin t ^ 3)
  else if ct = "epicycloid" then
    let rs := if k ≠ 0 then r / k else 1
    (pydiv (r + rs) rs).bind fun q =>
      some ((r + rs) * Real.cos t - rs * Real.cos (q * t),
            (r + rs) * Real.sin t - rs * Real.sin (q * t))
  else if ct = "epitrochoid" then
    let rs := if k ≠ 0 then r / k else 1
    (pydiv (r + rs) rs).bind fun q =>
      some ((r + rs) * Real.cos t - d * Real.cos (q * t),
            (r + rs) * Real.sin t - d * Real.sin (q * t))
  else if ct = "hypocycloid" then
    let rs := if k ≠ 0 then r / k else 1
    (pydiv (r - rs) rs).bind fun q =>
      some ((r - rs) * Real.cos t + rs * Real.cos (q * t),
            (r - rs) * Real.sin t - rs * Real.sin (q * t))
  else if ct = "hypotrochoid" then
    let rs := if k ≠ 0 then r / k else 1
    (pydiv (r - rs) rs).bind fun q =>
      some ((r - rs) * Real.cos t + d * Real.cos (q * t),
            (r - rs) * Real.sin t - d * Real.sin (q * t))
  else if ct = "lissajous" then
    some (r * Real.sin (k * t + d), r * Real.sin (3 * t))
  else if ct = "rose" then
    some (r * Real.cos (k * t) * Real.cos t, r * Real.cos (k * t) * Real.sin t)
  else
    some (0, 0)

/-- The epi-family closed form named by the spec: tracing offset `c`,
rolling radius `b`, so the point is
`((r+b)·cos t − c·cos(((r+b)/b)·t), (r+b)·sin t − c·sin(((r+b)/b)·t))`. -/
noncomputable def epiFamilyClaim (c b t r : ℝ) : ℝ × ℝ :=
  ((r + b) * Real.cos t - c * Real.cos ((r + b) / b * t),
   (r + b) * Real.sin t - c * Real.sin ((r + b) / b * t))

/-- The hypo-family closed form: tracing offset `c`, rolling radius `b`,
so the point is
`((r−b)·cos t + c·cos(((r−b)/b)·t), (r−b)·sin t − c·sin(((r−b)/b)·t))`. -/
noncomputable def hypoFamilyClaim (c b t r : ℝ) : ℝ × ℝ :=
  ((r - b) * Real.cos t + c * Real.cos ((r - b) / b * t),
   (r - b) * Real.sin t - c * Real.sin ((r - b) / b * t))

/-- The visualization overlay returned by `get_auxiliary_data`: the 100
sampled points of the fixed line or circle, the 100 sampled points of the
rolling circle, and the rolling-circle center. -/
structure AuxData where
  fixed : ℕ → ℝ × ℝ
  roll : ℕ → ℝ × ℝ
  center : ℝ × ℝ

/-- The j-th of the 100 angles `np.linspace(0, 2π, 100)`. -/
noncomputable def theta (j : ℕ) : ℝ := 2 * Real.pi * j / 99

/-- `CurveMath.get_auxiliary_data(curve_type, t, r, k, d)`.  The outer
`Option` is `none` when the source raises `ZeroDivisionError` (the
unguarded `r_small = r / k`); the inner `Option` is `none` for the
source's `(None, None, None)` return on kinds with no rolling circle. -/
noncomputable def get_auxiliary_data (ct : String) (t r k d : ℝ) :
    Option (Option AuxData) :=
  if ct = "cycloid" ∨ ct = "trochoid" then
    some (some
      { fixed := fun j => (-r + (r * 4 * Real.pi + r - -r) * j / 99, 0),
        roll := fun j => (r * t + r * Real.cos (theta j),
                          r + r * Real.sin (theta j)),
        center := (r * t, r) })
  else if ct = "epicycloid" ∨ ct = "cardioid" ∨ ct = "nephroid" ∨
      ct = "epitrochoid" then
    (if ct = "cardioid" then some r
     else if ct = "nephroid" then some (r / 2) else pydiv r k).bind fun rs =>
      some (some
        { fixed := fun j => (r * Real.cos (theta j), r * Real.sin (theta j)),
          roll := fun j => ((r + rs) * Real.cos t + rs * Real.cos (theta j),
                            (r + rs) * Real.sin t + rs * Real.sin (theta j)),
          center := ((r + rs) * Real.cos t, (r + rs) * Real.sin t) })
  else if ct = "hypocycloid" ∨ ct = "astroid" ∨ ct = "hypotrochoid" then
    (if ct = "astroid" then some (r / 4) else pydiv r k).bind fun rs =>
      some (some
        { fixed := fun j => (r * Real.cos (theta j), r * Real.sin (theta j)),
          roll := fun j => ((r - rs) * Real.cos t + rs * Real.cos (theta j),
                            (r - rs) * Real.sin t + rs * Real.sin (theta j)),
          center := ((r - rs) * Real.cos t, (r - rs) * Real.sin t) })
  else
    some none

/-- `CurveMath.get_max_t(curve_type, k)`.  The source's `rose` branch
returns `2π` whichever arm of its inner parity conditional is taken, so it
is embedded as that common value. -/
noncomputable def get_max_t (ct : String) (k : ℝ) : ℝ :=
  if ct = "cycloid" ∨ ct = "trochoid" then 4 * Real.pi
  else if ct = "epicycloid" ∨ ct = "epitrochoid" ∨ ct = "hypocycloid" ∨
      ct = "hypotrochoid" then 2 * Real.pi * k
  else if ct = "rose" then 2 * Real.pi
  else 2 * Real.pi

/-- The i-th of the 1000 parameters `np.linspace(0, max_t, 1000)` used by
`calculate_stats`. -/
noncomputable def tval (max_t : ℝ) (i : ℕ) : ℝ := max_t * i / 999

/-- The i-th sample evaluation performed by `calculate_stats`. -/
noncomputable def pointAt (ct : String) (r k d max_t : ℝ) (i : ℕ) :
    Option (ℝ × ℝ) :=
  get_point ct (tval max_t i) r k d

/-- The i-th sample point, meaningful when `pointAt` succeeds. -/
noncomputable def samplePt (ct : String) (r k d max_t : ℝ) (i : ℕ) : ℝ × ℝ :=
  (pointAt ct r k d max_t i).getD (0, 0)

/-- `CurveMath.calculate_stats(curve_type, r, k, d, max_t)`: evaluates the
curve at the 1000 linspace parameters, sums `√(dx² + dy²)` over the 999
consecutive differences for the length, and takes `½·|Σ (xᵢ·yᵢ₊₁ −
xᵢ₊₁·yᵢ)|` over i = 0..998 for the area; `none` when any sample
evaluation raises, as the exception would escape the source loop. -/
noncomputable def calculate_stats (ct : String) (r k d max_t : ℝ) :
    Option (ℝ × ℝ) :=
  if ∀ i < 1000, (pointAt ct r k d max_t i).isSome = true then
    some (∑ i ∈ Finset.range 999,
            Real.sqrt (((samplePt ct r k d max_t (i+1)).1
                - (samplePt ct r k d max_t i).1) ^ 2
              + ((samplePt ct r k d max_t (i+1)).2
                - (samplePt ct r k d max_t i).2) ^ 2),
          1 / 2 * |∑ i ∈ Finset.range 999,
            ((samplePt ct r k d max_t i).1 * (samplePt ct r k d max_t (i+1)).2
              - (samplePt ct r k d max_t (i+1)).1
                * (samplePt ct r k d max_t i).2)|)
  else none

/-- Euclidean distance between two plane points. -/
noncomputable def euclDist (a b : ℝ × ℝ) : ℝ :=
  Real.sqrt ((b.1 - a.1) ^ 2 + (b.2 - a.2) ^ 2)

/-- Open shoelace area over the vertices `p 0 .. p (n-1)`: half the
absolute sum over consecutive pairs only, with no closing term. -/
noncomputable def shoelaceOpenArea (p : ℕ → ℝ × ℝ) (n : ℕ) : ℝ :=
  1 / 2 * |∑ i ∈ Finset.range (n - 1),
    ((p i).1 * (p (i+1)).2 - (p (i+1)).1 * (p i).2)|

/-- Cyclic shoelace area over the vertex cycle `p 0 .. p (n-1)`: the
successor index is taken mod n, so the term closing the polygon from the
last vertex back to the first is included. -/
noncomputable def shoelaceCyclicArea (p : ℕ → ℝ × ℝ) (n : ℕ) : ℝ :=
  1 / 2 * |∑ i ∈ Finset.range n,
    ((p i).1 * (p ((i+1) % n)).2 - (p ((i+1) % n)).1 * (p i).2)|

/-- The y-coordinate of the i-th sample of the lissajous configuration
r = 1, k = 0, d = π/2, max_t = π/6 used by the area counterexample. -/
noncomputable def lissY (i : ℕ) : ℝ := Real.sin (3 * (Real.pi / 6 * i / 999))

/-- Claim C7: for every r, k, d, `get_point` at t = 0 matches the closed
form at 0: the cycloid gives (0, 0) and the astroid gives (r, 0). -/
theorem point_at_zero (r k d : ℝ) :
    get_point "cycloid" 0 r k d = some (0, 0) ∧
    get_point "astroid" 0 r k d = some (r, 0) := by
  constructor <;> simp [get_point]

/-- Claim C4: `get_max_t` returns 4π for cycloid and trochoid, 2πk for the
epi/hypo four, and 2π for every other string, the named leftover kinds
included. -/
theorem max_t_values (k : ℝ) :
    get_max_t "cycloid" k = 4 * Real.pi ∧
    get_max_t "trochoid" k = 4 * Real.pi ∧
    get_max_t "epicycloid" k = 2 * Real.pi * k ∧
    get_max_t "epitrochoid" k = 2 * Real.pi * k ∧
    get_max_t "hypocycloid" k = 2 * Real.pi * k ∧
    get_max_t "hypotrochoid" k = 2 * Real.pi * k ∧
    get_max_t "cardioid" k = 2 * Real.pi ∧
    get_max_t "nephroid" k = 2 * Real.pi ∧
    get_max_t "astroid" k = 2 * Real.pi ∧
    get_max_t "lissajous" k = 2 * Real.pi ∧
    get_max_t "rose" k = 2 * Real.pi ∧
    ∀ ct : String, ct ≠ "cycloid" → ct ≠ "trochoid" → ct ≠ "epicycloid" →
      ct ≠ "epitrochoid" → ct ≠ "hypocycloid" → ct ≠ "hypotrochoid" →
      get_max_t ct k = 2 * Real.pi := by
  refine ⟨by simp [get_max_t], by simp [get_max_t], by simp [get_max_t],
    by simp [get_max_t], by simp [get_max_t], by simp [get_max_t],
    by simp [get_max_t], by simp [get_max_t], by simp [get_max_t],
    by simp [get_max_t], by simp [get_max_t], ?_⟩
  intro ct h1 h2 h3 h4 h5 h6
  simp [get_max_t, h1, h2, h3, h4, h5, h6]

/-- Witness for `max_t_values` at an unrecognized kind. -/
theorem max_t_values_w :
    (("helix" : String) ≠ "cycloid" ∧ ("helix" : String) ≠ "trochoid" ∧
     ("helix" : String) ≠ "epicycloid" ∧ ("helix" : String) ≠ "epitrochoid" ∧
     ("helix" : String) ≠ "hypocycloid" ∧ ("helix" : String) ≠ "hypotrochoid") ∧
    get_max_t "helix" 2 = 2 * Real.pi :=
  ⟨by decide,
   (max_t_values 2).2.2.2.2.2.2.2.2.2.2.2 "helix" (by decide) (by decide)
     (by decide) (by decide) (by decide) (by decide)⟩

/-- Claim C6: any curve-type string outside the eleven recognized kinds
yields `some (0, 0)` from `get_point`, never a failure. -/
theorem unknown_kind_point (ct : String)
    (h1 : ct ≠ "cycloid") (h2 : ct ≠ "trochoid") (h3 : ct ≠ "cardioid")
    (h4 : ct ≠ "nephroid") (h5 : ct ≠ "astroid") (h6 : ct ≠ "epicycloid")
    (h7 : ct ≠ "epitrochoid") (h8 : ct ≠ "hypocycloid")
    (h9 : ct ≠ "hypotrochoid") (h10 : ct ≠ "lissajous") (h11 : ct ≠ "rose")
    (t r k d : ℝ) :
    get_point ct t r k d = some (0, 0) := by
  simp [get_point, h1, h2, h3, h4, h5, h6, h7, h8, h9, h10, h11]

/-- Witness for `unknown_kind_point` at the unrecognized kind "spiral". -/
theorem unknown_kind_point_w :
    (("spiral" : String) ≠ "cycloid" ∧ ("spiral" : String) ≠ "trochoid" ∧
     ("spiral" : String) ≠ "cardioid" ∧ ("spiral" : String) ≠ "nephroid" ∧
     ("spiral" : String) ≠ "astroid" ∧ ("spiral" : String) ≠ "epicycloid" ∧
     ("spiral" : String) ≠ "epitrochoid" ∧ ("spiral" : String) ≠ "hypocycloid" ∧
     ("spiral" : String) ≠ "hypotrochoid" ∧ ("spiral" : String) ≠ "lissajous" ∧
     ("spiral" : String) ≠ "rose") ∧
    get_point "spiral" 0 0 0 0 = some (0, 0) :=
  ⟨by decide,
   unknown_kind_point "spiral" (by decide) (by decide) (by decide) (by decide)
     (by decide) (by decide) (by decide) (by decide) (by decide) (by decide)
     (by decide) 0 0 0 0⟩

/-- Claim C10: `get_point` and `get_max_t` are pure: calls with equal
arguments return equal results (in the embedding both are functions of
their arguments alone, the source methods touching no other state). -/
theorem point_max_t_deterministic (ct₁ ct₂ : String)
    (t₁ t₂ r₁ r₂ k₁ k₂ d₁ d₂ : ℝ)
    (hct : ct₁ = ct₂) (ht : t₁ = t₂) (hr : r₁ = r₂) (hk : k₁ = k₂)
    (hd : d₁ = d₂) :
    get_point ct₁ t₁ r₁ k₁ d₁ = get_point ct₂ t₂ r₂ k₂ d₂ ∧
    get_max_t ct₁ k₁ = get_max_t ct₂ k₂ := by
  subst hct ht hr hk hd
  exact ⟨rfl, rfl⟩

/-- Witness for `point_max_t_deterministic` at equal concrete arguments. -/
theorem point_max_t_deterministic_w :
    (("cycloid" : String) = "cycloid" ∧ (0 : ℝ) = 0 ∧ (1 : ℝ) = 1) ∧
    (get_point "cycloid" 0 1 1 1 = get_point "cycloid" 0 1 1 1 ∧
     get_max_t "cycloid" 1 = get_max_t "cycloid" 1) :=
  ⟨⟨rfl, rfl, rfl⟩,
   point_max_t_deterministic "cycloid" "cycloid" 0 0 1 1 1 1 1 1 rfl rfl rfl
     rfl rfl⟩

/-- Claim C2 counterexample: for the cardioid at t = π, r = 1, k = 2, the
code does not evaluate the epi-family form with rolling radius r/k = 1/2
(the code's cardioid radius is r itself, giving (−3, 0), not (−1, 0)). -/
theorem epi_family_claim_cex :
    get_point "cardioid" Real.pi 1 2 0 ≠
      some (epiFamilyClaim (1/2) (1/2) Real.pi 1) := by
  have e1 : Real.cos (2 * Real.pi) = 1 := Real.cos_two_pi
  have e2 : Real.sin (2 * Real.pi) = 0 := Real.sin_two_pi
  have e3 : Real.cos (3 * Real.pi) = -1 := by
    rw [show (3:ℝ) * Real.pi = 2 * Real.pi + Real.pi by ring,
      Real.cos_add, e1, e2]
    simp
  have e4 : Real.sin (3 * Real.pi) = 0 := by
    rw [show (3:ℝ) * Real.pi = 2 * Real.pi + Real.pi by ring,
      Real.sin_add, e1, e2]
    simp
  have L : get_point "cardioid" Real.pi 1 2 0 = some (-3, 0) := by
    simp [get_point, e1, e2]
    norm_num
  have R : epiFamilyClaim (1/2) (1/2) Real.pi 1 = (-1, 0) := by
    norm_num [epiFamilyClaim, e3, e4]
  rw [L, R]
  simp

/-- Claim C2 amended: for nonzero r and k the four epi-family kinds match
the epi-family closed form, but with rolling radius b = r for the
cardioid, b = r/2 for the nephroid, and b = r/k only for the epicycloid
and the epitrochoid (whose tracing offset is d). -/
theorem epi_family_radii (t r k d : ℝ) (hr : r ≠ 0) (hk : k ≠ 0) :
    get_point "cardioid" t r k d = some (epiFamilyClaim r r t r) ∧
    get_point "nephroid" t r k d = some (epiFamilyClaim (r/2) (r/2) t r) ∧
    get_point "epicycloid" t r k d = some (epiFamilyClaim (r/k) (r/k) t r) ∧
    get_point "epitrochoid" t r k d = some (epiFamilyClaim d (r/k) t r) := by
  have hb : r / 2 ≠ 0 := div_ne_zero hr two_ne_zero
  have hrk : r / k ≠ 0 := div_ne_zero hr hk
  have h2 : (r + r) / r = 2 := by rw [div_eq_iff hr]; ring
  refine ⟨?_, ?_, ?_, ?_⟩
  · have hP : epiFamilyClaim r r t r
        = (2 * r * Real.cos t - r * Real.cos (2 * t),
           2 * r * Real.sin t - r * Real.sin (2 * t)) := by
      unfold epiFamilyClaim
      rw [h2, Prod.mk.injEq]
      exact ⟨by ring, by ring⟩
    rw [hP]
    simp [get_point]
  · simp [get_point, epiFamilyClaim, pydiv, hb]
  · simp [get_point, epiFamilyClaim, pydiv, hk, hrk]
  · simp [get_point, epiFamilyClaim, pydiv, hk, hrk]

/-- Witness for `epi_family_radii` at t = 0, r = 1, k = 1, d = 0. -/
theorem epi_family_radii_w :
    (1:ℝ) ≠ 0 ∧
    (get_point "cardioid" 0 1 1 0 = some (epiFamilyClaim 1 1 0 1) ∧
     get_point "nephroid" 0 1 1 0 = some (epiFamilyClaim (1/2) (1/2) 0 1) ∧
     get_point "epicycloid" 0 1 1 0 = some (epiFamilyClaim (1/1) (1/1) 0 1) ∧
     get_point "epitrochoid" 0 1 1 0 = some (epiFamilyClaim 0 (1/1) 0 1)) :=
  ⟨one_ne_zero, epi_family_radii 0 1 1 0 one_ne_zero one_ne_zero⟩

/-- Claim C8 counterexample: at r = 0 the dedicated astroid form returns
(0, 0) while the hypocycloid at k = 4 divides by a zero rolling radius
and fails, so the two disagree. -/
theorem astroid_hypo_r_zero_cex :
    get_point "astroid" 0 0 4 0 ≠ get_point "hypocycloid" 0 0 4 0 := by
  have h4 : ¬((4:ℝ) = 0) := by norm_num
  simp [get_point, pydiv, h4]

/-- Claim C8 amended: for every t, k, d and every r ≠ 0, the astroid
closed form coincides with the hypocycloid evaluation at k = 4. -/
theorem astroid_eq_hypocycloid_four (t r k d : ℝ) (hr : r ≠ 0) :
    get_point "astroid" t r k d = get_point "hypocycloid" t r 4 d := by
  have h4 : ¬((4:ℝ) = 0) := by norm_num
  have hr4 : r / 4 ≠ 0 := div_ne_zero hr (by norm_num)
  have hq : (r - r / 4) / (r / 4) = 3 := by rw [div_eq_iff hr4]; ring
  simp [get_point, pydiv, h4, hr4, hq, Real.cos_three_mul, Real.sin_three_mul]
  constructor <;> ring

/-- Witness for `astroid_eq_hypocycloid_four` at t = 0, r = 1. -/
theorem astroid_eq_hypocycloid_four_w :
    (1:ℝ) ≠ 0 ∧ get_point "astroid" 0 1 0 0 = get_point "hypocycloid" 0 1 4 0 :=
  ⟨one_ne_zero, astroid_eq_hypocycloid_four 0 1 0 0 one_ne_zero⟩

/-- Claim C3 counterexample: `get_auxiliary_data` has no k = 0 guard: at
k = 0 its epicycloid branch divides r / k and fails instead of returning
a value with the radius replaced by 1. -/
theorem aux_k_zero_cex :
    get_auxiliary_data "epicycloid" 0 1 0 0 = none := by
  simp [get_auxiliary_data, pydiv]

/-- Claim C3 amended: the silent k = 0 → radius 1 fallback holds only in
`get_point`, where the four epi/hypo kinds then return the closed form
with rolling radius 1; `get_auxiliary_data` divides r / k unguarded, so
the same call fails with a `ZeroDivisionError`. -/
theorem k_zero_fallback (t r d : ℝ) :
    get_point "epicycloid" t r 0 d = some (epiFamilyClaim 1 1 t r) ∧
    get_point "epitrochoid" t r 0 d = some (epiFamilyClaim d 1 t r) ∧
    get_point "hypocycloid" t r 0 d = some (hypoFamilyClaim 1 1 t r) ∧
    get_point "hypotrochoid" t r 0 d = some (hypoFamilyClaim d 1 t r) ∧
    get_auxiliary_data "epicycloid" t r 0 d = none ∧
    get_auxiliary_data "epitrochoid" t r 0 d = none ∧
    get_auxiliary_data "hypocycloid" t r 0 d = none ∧
    get_auxiliary_data "hypotrochoid" t r 0 d = none := by
  refine ⟨?_, ?_, ?_, ?_, ?_, ?_, ?_, ?_⟩ <;>
    simp [get_point, get_auxiliary_data, epiFamilyClaim, hypoFamilyClaim,
      pydiv]

/-- Every cycloid sample evaluation succeeds (the cycloid branch has no
division), at the concrete parameters used by the witnesses below. -/
theorem cycloid_samples_defined :
    ∀ i < 1000, (pointAt "cycloid" 1 1 1 1 i).isSome = true := by
  intro i _
  simp [pointAt, get_point]

/-- Claim C5 counterexample: at r = 0 the nephroid sample evaluations
divide by the zero rolling radius, so `calculate_stats` fails instead of
returning a length. -/
theorem stats_nephroid_r_zero_cex :
    calculate_stats "nephroid" 0 1 1 1 = none := by
  rw [calculate_stats, if_neg]
  intro h
  have h0 := h 0 (by norm_num)
  simp [pointAt, get_point, tval, pydiv] at h0

/-- Claim C5 amended: whenever every sample evaluation is defined,
`calculate_stats` samples the 1000 linspace parameters — which start at
0, end at max_t, and advance by the constant step max_t/999 — and its
length component is the sum of the Euclidean distances of the 999
consecutive sample pairs. -/
theorem stats_sampling_length (ct : String) (r k d max_t : ℝ)
    (hmt : 0 ≤ max_t)
    (hdef : ∀ i < 1000, (pointAt ct r k d max_t i).isSome = true) :
    tval max_t 0 = 0 ∧ tval max_t 999 = max_t ∧
    (∀ i : ℕ, tval max_t (i+1) - tval max_t i = max_t / 999) ∧
    (calculate_stats ct r k d max_t).map Prod.fst
      = some (∑ i ∈ Finset.range 999,
          euclDist (samplePt ct r k d max_t i)
            (samplePt ct r k d max_t (i+1))) := by
  refine ⟨by simp [tval], by norm_num [tval], ?_, ?_⟩
  · intro i
    unfold tval
    push_cast
    ring
  · rw [calculate_stats, if_pos hdef]
    simp [euclDist]

/-- Witness for `stats_sampling_length` on the cycloid at r = k = d =
max_t = 1. -/
theorem stats_sampling_length_w :
    ((0:ℝ) ≤ 1 ∧ ∀ i < 1000, (pointAt "cycloid" 1 1 1 1 i).isSome = true) ∧
    (tval 1 0 = 0 ∧ tval 1 999 = 1 ∧
     (∀ i : ℕ, tval 1 (i+1) - tval 1 i = 1 / 999) ∧
     (calculate_stats "cycloid" 1 1 1 1).map Prod.fst
       = some (∑ i ∈ Finset.range 999,
           euclDist (samplePt "cycloid" 1 1 1 1 i)
             (samplePt "cycloid" 1 1 1 1 (i+1)))) :=
  ⟨⟨by norm_num, cycloid_samples_defined⟩,
   stats_sampling_length "cycloid" 1 1 1 1 (by norm_num)
     cycloid_samples_defined⟩

/-- Claim C1 amended: whenever every sample evaluation is defined, the
area component of `calculate_stats` is the OPEN shoelace value over the
1000 sample points: half the absolute sum over the 999 consecutive pairs
only, with no term closing the polygon. -/
theorem area_open_shoelace (ct : String) (r k d max_t : ℝ)
    (hdef : ∀ i < 1000, (pointAt ct r k d max_t i).isSome = true) :
    (calculate_stats ct r k d max_t).map Prod.snd
      = some (shoelaceOpenArea (samplePt ct r k d max_t) 1000) := by
  rw [calculate_stats, if_pos hdef]
  simp [shoelaceOpenArea]

/-- Witness for `area_open_shoelace` on the cycloid at r = k = d =
max_t = 1. -/
theorem area_open_shoelace_w :
    (∀ i < 1000, (pointAt "cycloid" 1 1 1 1 i).isSome = true) ∧
    (calculate_stats "cycloid" 1 1 1 1).map Prod.snd
      = some (shoelaceOpenArea (samplePt "cycloid" 1 1 1 1) 1000) :=
  ⟨cycloid_samples_defined,
   area_open_shoelace "cycloid" 1 1 1 1 cycloid_samples_defined⟩

/-- In the lissajous configuration r = 1, k = 0, d = π/2, max_t = π/6,
every sample point is `(1, lissY i)`: the x
oscillator is frozen at amplitude sin(π/2) = 1. -/
theorem liss_pointAt (i : ℕ) :
    pointAt "lissajous" 1 0 (Real.pi / 2) (Real.pi / 6) i
      = some (1, lissY i) := by
  simp [pointAt, get_point, tval, lissY]

/-- Sample-point form of `liss_pointAt`. -/
theorem liss_samplePt (i : ℕ) :
    samplePt "lissajous" 1 0 (Real.pi / 2) (Real.pi / 6) i = (1, lissY i) := by
  simp [samplePt, liss_pointAt]

/-- The last lissajous sample height: sin(π/2) = 1. -/
theorem lissY_999 : lissY 999 = 1 := by
  unfold lissY
  rw [show 3 * (Real.pi / 6 * ((999:ℕ):ℝ) / 999) = Real.pi / 2 by
    push_cast; ring]
  exact Real.sin_pi_div_two

/-- The first lissajous sample height: sin 0 = 0. -/
theorem lissY_0 : lissY 0 = 0 := by
  simp [lissY]

/-- Claim C1 counterexample: on the lissajous configuration r = 1, k = 0,
d = π/2, max_t = π/6 the sample path has constant x = 1, so the open
shoelace sum telescopes to 1 and the code returns area 1/2, while the
cyclic shoelace value of the same vertex cycle is 0. -/
theorem area_cyclic_shoelace_cex :
    (calculate_stats "lissajous" 1 0 (Real.pi / 2) (Real.pi / 6)).map Prod.snd
      ≠ some (shoelaceCyclicArea
          (samplePt "lissajous" 1 0 (Real.pi / 2) (Real.pi / 6)) 1000) := by
  have hdef : ∀ i < 1000,
      (pointAt "lissajous" 1 0 (Real.pi / 2) (Real.pi / 6) i).isSome
        = true := by
    intro i _
    rw [liss_pointAt]
    rfl
  have hopen : ∑ i ∈ Finset.range 999,
      ((samplePt "lissajous" 1 0 (Real.pi / 2) (Real.pi / 6) i).1
          * (samplePt "lissajous" 1 0 (Real.pi / 2) (Real.pi / 6) (i+1)).2
        - (samplePt "lissajous" 1 0 (Real.pi / 2) (Real.pi / 6) (i+1)).1
          * (samplePt "lissajous" 1 0 (Real.pi / 2) (Real.pi / 6) i).2)
      = 1 := by
    have hc : ∀ i ∈ Finset.range 999,
        (samplePt "lissajous" 1 0 (Real.pi / 2) (Real.pi / 6) i).1
            * (samplePt "lissajous" 1 0 (Real.pi / 2) (Real.pi / 6) (i+1)).2
          - (samplePt "lissajous" 1 0 (Real.pi / 2) (Real.pi / 6) (i+1)).1
            * (samplePt "lissajous" 1 0 (Real.pi / 2) (Real.pi / 6) i).2
        = lissY (i+1) - lissY i := by
      intro i _
      rw [liss_samplePt, liss_samplePt]
      simp
    rw [Finset.sum_congr rfl hc, Finset.sum_range_sub lissY 999, lissY_999,
      lissY_0]
    norm_num
  have hcyc : ∑ i ∈ Finset.range 1000,
      ((samplePt "lissajous" 1 0 (Real.pi / 2) (Real.pi / 6) i).1
          * (samplePt "lissajous" 1 0 (Real.pi / 2) (Real.pi / 6)
              ((i+1) % 1000)).2
        - (samplePt "lissajous" 1 0 (Real.pi / 2) (Real.pi / 6)
              ((i+1) % 1000)).1
          * (samplePt "lissajous" 1 0 (Real.pi / 2) (Real.pi / 6) i).2)
      = 0 := by
    rw [Finset.sum_range_succ]
    have hmain : ∑ i ∈ Finset.range 999,
        ((samplePt "lissajous" 1 0 (Real.pi / 2) (Real.pi / 6) i).1
            * (samplePt "lissajous" 1 0 (Real.pi / 2) (Real.pi / 6)
                ((i+1) % 1000)).2
          - (samplePt "lissajous" 1 0 (Real.pi / 2) (Real.pi / 6)
                ((i+1) % 1000)).1
            * (samplePt "lissajous" 1 0 (Real.pi / 2) (Real.pi / 6) i).2)
        = ∑ i ∈ Finset.range 999, (lissY (i+1) - lissY i) := by
      refine Finset.sum_congr rfl fun i hi => ?_
      have hi9 : i < 999 := Finset.mem_range.mp hi
      rw [Nat.mod_eq_of_lt (by omega : i + 1 < 1000)]
      rw [liss_samplePt, liss_samplePt]
      simp
    rw [hmain, Finset.sum_range_sub lissY 999]
    rw [show (999 + 1) % 1000 = 0 by norm_num]
    rw [liss_samplePt, liss_samplePt, lissY_999, lissY_0]
    norm_num
  rw [calculate_stats, if_pos hdef]
  simp only [Option.map_some']
  rw [shoelaceCyclicArea]
  rw [hcyc, hopen]
  norm_num

end CurveMath
